import Mathlib

/-!
Verification of the realm navigation and selection state machine of
MotiBeam Spatial OS (src/spatial_os.py, class MotiBeamOS).

The embedding models the input-processing step `handle_key` together with
every piece of mutable state it can touch: the shell's navigation state
(`selected_index`, `state`, `navigation_stack`), the per-realm local state
stored in `realm_data`, the call-simulation and alert-banner flags, and the
scrolling ticker.  Rendering code, fonts, weather fetching and the
render-only fields (`current_alert_index`, `alert_pulse`, `ticker_offset`,
`weather`, `action_feedback`, `action_time`, `last_ticker_msg`) are not
modelled: they are never read or written by `handle_key` or the handlers it
dispatches to.  Wall-clock reads (`time.time()`) are modelled by an explicit
`now : Nat` argument threaded to the handlers that call it.

The ticker (`self.ticker_text`, a string built by prepending fixed message
strings) is modelled as a list of abstract messages; the source's
`startswith` de-duplication check corresponds to comparing the head of the
list, which is faithful because the distinct message strings of the source
are never prefixes of one another.
-/

namespace MotiBeam

/-- The values taken by `self.state` (src/spatial_os.py:204, 610, 621):
"home" plus the six realm names appearing in `realm_map`
(src/spatial_os.py:701-708). -/
inductive SName
  | home
  | circlebeam
  | marketplace
  | home_realm
  | clinical
  | education
  | transport
deriving DecidableEq

/-- The keyboard keys that `handle_key` and the per-realm handlers inspect.
`enter` stands for both K_RETURN and K_KP_ENTER, which every handler treats
identically; `digit d` stands for the key K_1 .. K_9 with `d.val = key - K_1`;
`other` stands for any key no handler inspects. -/
inductive Key
  | left
  | right
  | up
  | down
  | enter
  | escape
  | kq
  | kl
  | ki
  | ka
  | kb
  | kc
  | kd
  | kn
  | ks
  | digit (d : Fin 9)
  | other
deriving DecidableEq

/-- Abstract ticker messages.  `boot` is the initial ticker string
(src/spatial_os.py:269); the others are the strings prepended by the
decline branch (line 668), the marketplace demo install (line 1108),
and the education session start/complete branches (lines 1773, 1823). -/
inductive Msg
  | boot
  | missedPresence
  | installMsg (px : Nat)
  | sessionStart (subject : Nat)
  | sessionComplete (subject mins secs : Nat)
deriving DecidableEq

/-- realm_data['circlebeam'] (src/spatial_os.py:209); `action_feedback` and
`action_time` are never read or written by any handler and are omitted. -/
structure CircleData where
  selected : Nat
deriving DecidableEq

/-- realm_data['marketplace'] (src/spatial_os.py:210-214).  `installed` is a
set of PX names in the source; PX names are in bijection with their grid
index (px_names, line 1070), so it is modelled as a duplicate-free list of
indices. -/
structure MarketData where
  selected : Nat
  preview_open : Bool
  installed : List Nat
deriving DecidableEq

/-- realm_data['home_realm'] (src/spatial_os.py:215-226), with the `devices`
dict flattened into fields (device order: living_lights, bedroom_lights,
temp, security, door, garage). -/
structure HomeRealmData where
  selected : Nat
  temp_changed_time : Nat
  living_lights : Bool
  bedroom_lights : Bool
  temp : Nat
  security : Bool
  door : Bool
  garage : Bool
deriving DecidableEq

/-- realm_data['clinical'] (src/spatial_os.py:227); its `selected` entry is
never read or written by `handle_clinical_input`, which is a no-op. -/
structure ClinicalData where
  selected : Nat
deriving DecidableEq

/-- realm_data['education'] (src/spatial_os.py:228-237); `last_ticker_msg`
is initialised and never used and is omitted. -/
structure EduData where
  selected : Nat
  panel_open : Bool
  in_session : Bool
  subject_index : Nat
  q_index : Nat
  session_start_time : Nat
  answered_correctly : Bool
deriving DecidableEq

/-- realm_data['transport'] (src/spatial_os.py:238). -/
structure TransportData where
  selected : Nat
deriving DecidableEq

/-- self.realm_data (src/spatial_os.py:208-239). -/
structure RealmData where
  circlebeam : CircleData
  marketplace : MarketData
  home_realm : HomeRealmData
  clinical : ClinicalData
  education : EduData
  transport : TransportData
deriving DecidableEq

/-- All mutable MotiBeamOS state read or written by `handle_key` and the
handlers it dispatches to (src/spatial_os.py:201-270). -/
structure OS where
  selected_index : Nat
  state : SName
  navigation_stack : List SName
  realm_data : RealmData
  call_active : Bool
  missed_presence : Bool
  alert_enabled : Bool
  alert_change_time : Nat
  ticker_text : List Msg
deriving DecidableEq

/-- GRID_COLS (src/spatial_os.py:80). -/
def GRID_COLS : Nat := 4

/-- GRID_ROWS (src/spatial_os.py:81). -/
def GRID_ROWS : Nat := 3

/-- len(REALMS) (src/spatial_os.py:92-105): 12 grid entries. -/
def NUM_REALMS : Nat := 12

/-- MotiBeamOS.move_selection (src/spatial_os.py:595-605).  Arithmetic is
done in Int exactly as Python does (operands are nonnegative, so Python's
floor division and modulo agree with Int division here). -/
def move_selection (s : OS) (dx dy : Int) : OS :=
  let index : Int := s.selected_index
  let row := index / (GRID_COLS : Int)
  let col := index % (GRID_COLS : Int)
  let row2 := max 0 (min ((GRID_ROWS : Int) - 1) (row + dy))
  let col2 := max 0 (min ((GRID_COLS : Int) - 1) (col + dx))
  let new_index := row2 * (GRID_COLS : Int) + col2
  if new_index < (NUM_REALMS : Int) then
    { s with selected_index := new_index.toNat }
  else
    s

/-- MotiBeamOS.enter_realm (src/spatial_os.py:607-615): push the realm name,
switch state, and clear the missed-presence badge when entering circlebeam. -/
def enter_realm (s : OS) (realm_name : SName) : OS :=
  let s1 := { s with
    navigation_stack := s.navigation_stack ++ [realm_name],
    state := realm_name }
  if realm_name = SName.circlebeam then
    { s1 with missed_presence := false }
  else
    s1

/-- MotiBeamOS.go_back (src/spatial_os.py:617-624).  The source also returns
True/False, which its one caller (handle_key, line 638) discards, so only
the state effect is modelled.  `getLastD`'s default is never used: the
branch guarantees the popped stack is nonempty. -/
def go_back (s : OS) : OS :=
  if s.navigation_stack.length > 1 then
    let st := s.navigation_stack.dropLast
    { s with navigation_stack := st, state := st.getLastD SName.home }
  else
    s

/-- The realm_map dict of handle_home_input (src/spatial_os.py:701-708):
which grid indices have a bound realm implementation. -/
def realm_map (i : Nat) : Option SName :=
  if i = 0 then some SName.circlebeam
  else if i = 3 then some SName.marketplace
  else if i = 4 then some SName.home_realm
  else if i = 5 then some SName.clinical
  else if i = 6 then some SName.education
  else if i = 8 then some SName.transport
  else none

/-- MotiBeamOS.handle_home_input (src/spatial_os.py:689-718).  The
"Coming Soon" branch (lines 712-714) only prints `REALMS[selected_index]`
(defined whenever selected_index < 12) and leaves the state unchanged. -/
def handle_home_input (s : OS) (k : Key) : OS :=
  match k with
  | Key.left => move_selection s (-1) 0
  | Key.right => move_selection s 1 0
  | Key.up => move_selection s 0 (-1)
  | Key.down => move_selection s 0 1
  | Key.enter =>
    match realm_map s.selected_index with
    | some name => enter_realm s name
    | none => s
  | Key.digit d =>
    if d.val < NUM_REALMS then { s with selected_index := d.val } else s
  | _ => s

/-- MotiBeamOS.handle_circlebeam_input (src/spatial_os.py:818-841):
3-column grid over 5 members; ENTER is intentionally a no-op. -/
def handle_circlebeam_input (s : OS) (k : Key) : OS :=
  let sel := s.realm_data.circlebeam.selected
  match k with
  | Key.left =>
    if sel % 3 > 0 then
      { s with realm_data.circlebeam.selected := sel - 1 }
    else s
  | Key.right =>
    if sel % 3 < 3 - 1 ∧ sel < 5 - 1 then
      { s with realm_data.circlebeam.selected := sel + 1 }
    else s
  | Key.up =>
    if sel ≥ 3 then
      { s with realm_data.circlebeam.selected := sel - 3 }
    else s
  | Key.down =>
    if sel + 3 < 5 then
      { s with realm_data.circlebeam.selected := sel + 3 }
    else s
  | _ => s

/-- MotiBeamOS.handle_marketplace_input (src/spatial_os.py:1063-1110):
3-column grid over 6 PX tiles, preview toggle, and the demo install.
PX index 5 is 'Featured Today', the tile the install branch excludes. -/
def handle_marketplace_input (s : OS) (k : Key) : OS :=
  let sel := s.realm_data.marketplace.selected
  match k with
  | Key.left =>
    if sel % 3 > 0 then
      { s with realm_data.marketplace.selected := sel - 1 }
    else s
  | Key.right =>
    if sel % 3 < 3 - 1 ∧ sel < 6 - 1 then
      { s with realm_data.marketplace.selected := sel + 1 }
    else s
  | Key.up =>
    if sel ≥ 3 then
      { s with realm_data.marketplace.selected := sel - 3 }
    else s
  | Key.down =>
    if sel + 3 < 6 then
      { s with realm_data.marketplace.selected := sel + 3 }
    else s
  | Key.enter =>
    { s with realm_data.marketplace.preview_open :=
        !s.realm_data.marketplace.preview_open }
  | Key.kb =>
    if s.realm_data.marketplace.preview_open then
      { s with realm_data.marketplace.preview_open := false }
    else s
  | Key.kd =>
    if sel ∉ s.realm_data.marketplace.installed ∧ sel ≠ 5 then
      { s with
        realm_data.marketplace.installed := sel :: s.realm_data.marketplace.installed,
        ticker_text := Msg.installMsg sel :: s.ticker_text }
    else s
  | _ => s

/-- MotiBeamOS.handle_home_realm_input (src/spatial_os.py:1263-1320):
3-column grid over 6 devices; LEFT/RIGHT adjust the thermostat (device
index 2) clamped to [60, 85], ENTER toggles the other devices.  The ENTER
branch indexes device_ids[selected]; for selected ≥ 6 the source would
raise IndexError, which is unreachable (selected stays in [0, 5]). -/
def handle_home_realm_input (now : Nat) (s : OS) (k : Key) : OS :=
  let sel := s.realm_data.home_realm.selected
  let is_thermostat_selected := sel = 2
  match k with
  | Key.left =>
    if is_thermostat_selected then
      let current_temp := s.realm_data.home_realm.temp
      let new_temp := max 60 (current_temp - 1)
      if new_temp ≠ current_temp then
        { s with
          realm_data.home_realm.temp := new_temp,
          realm_data.home_realm.temp_changed_time := now }
      else s
    else if sel % 3 > 0 then
      { s with realm_data.home_realm.selected := sel - 1 }
    else s
  | Key.right =>
    if is_thermostat_selected then
      let current_temp := s.realm_data.home_realm.temp
      let new_temp := min 85 (current_temp + 1)
      if new_temp ≠ current_temp then
        { s with
          realm_data.home_realm.temp := new_temp,
          realm_data.home_realm.temp_changed_time := now }
      else s
    else if sel % 3 < 2 ∧ sel < 5 then
      { s with realm_data.home_realm.selected := sel + 1 }
    else s
  | Key.up =>
    if sel ≥ 3 then
      { s with realm_data.home_realm.selected := sel - 3 }
    else s
  | Key.down =>
    if sel < 3 then
      { s with realm_data.home_realm.selected := sel + 3 }
    else s
  | Key.enter =>
    match sel with
    | 0 => { s with realm_data.home_realm.living_lights := !s.realm_data.home_realm.living_lights }
    | 1 => { s with realm_data.home_realm.bedroom_lights := !s.realm_data.home_realm.bedroom_lights }
    | 2 => s
    | 3 => { s with realm_data.home_realm.security := !s.realm_data.home_realm.security }
    | 4 => { s with realm_data.home_realm.door := !s.realm_data.home_realm.door }
    | 5 => { s with realm_data.home_realm.garage := !s.realm_data.home_realm.garage }
    | _ => s
  | _ => s

/-- MotiBeamOS.handle_clinical_input (src/spatial_os.py:1446-1449): the
clinical dashboard is read-only; every key is a no-op. -/
def handle_clinical_input (s : OS) (_k : Key) : OS := s

/-- The 'correct' letters of get_education_questions
(src/spatial_os.py:1451-1484), indexed by subject then question.  The
source indexes questions[subject][q]; out of range it would raise, which is
unreachable (subject ∈ [0,5] from the 6-tile grid, q ∈ [0,2]). -/
def education_correct (subject q : Nat) : Char :=
  match subject, q with
  | 0, 0 => 'a'
  | 0, 1 => 'b'
  | 0, 2 => 'b'
  | 1, 0 => 'b'
  | 1, 1 => 'c'
  | 1, 2 => 'b'
  | 2, 0 => 'a'
  | 2, 1 => 'b'
  | 2, 2 => 'c'
  | 3, 0 => 'b'
  | 3, 1 => 'c'
  | 3, 2 => 'a'
  | 4, 0 => 'b'
  | 4, 1 => 'c'
  | 4, 2 => 'c'
  | 5, 0 => 'b'
  | 5, 1 => 'b'
  | 5, 2 => 'b'
  | _, _ => 'x'

/-- MotiBeamOS.handle_education_input (src/spatial_os.py:1718-1827).
In session mode the answer keys A/B/C apply while not answered_correctly,
N (next question) applies only once answered_correctly (it is an elif of
the answered check), and an independent trailing if handles K_ESCAPE —
a branch that is dead under handle_key, which intercepts ESC before
routing, but is embedded faithfully.  Outside a session: 3-column grid
over 6 subjects, ENTER toggles the preview panel, B closes it, and S
starts a session when the panel is open. -/
def education_session_body (now : Nat) (s : OS) (k : Key) : OS :=
  let ed := s.realm_data.education
  if !ed.answered_correctly then
    -- answer selection A/B/C (src/spatial_os.py:1735-1753)
    match k with
    | Key.ka =>
      if education_correct ed.subject_index ed.q_index = 'a' then
        { s with realm_data.education.answered_correctly := true }
      else s
    | Key.kb =>
      if education_correct ed.subject_index ed.q_index = 'b' then
        { s with realm_data.education.answered_correctly := true }
      else s
    | Key.kc =>
      if education_correct ed.subject_index ed.q_index = 'c' then
        { s with realm_data.education.answered_correctly := true }
      else s
    | _ => s
  else if k = Key.kn then
    -- next question / session complete (src/spatial_os.py:1756-1777)
    if ed.q_index < 2 then
      { s with
        realm_data.education.q_index := ed.q_index + 1,
        realm_data.education.answered_correctly := false }
    else
      let elapsed := now - ed.session_start_time
      let m := Msg.sessionComplete ed.subject_index (elapsed / 60) (elapsed % 60)
      let s2 := { s with
        realm_data.education.in_session := false,
        realm_data.education.panel_open := false }
      if s2.ticker_text.head? = some m then s2
      else { s2 with ticker_text := m :: s2.ticker_text }
  else s

def education_session_input (now : Nat) (s : OS) (k : Key) : OS :=
  let s1 := education_session_body now s k
  -- exit session (src/spatial_os.py:1780-1783): an independent if that
  -- runs after the answer/next block, before the session return
  if k = Key.escape then
    { s1 with
      realm_data.education.in_session := false,
      realm_data.education.panel_open := false }
  else s1

def handle_education_input (now : Nat) (s : OS) (k : Key) : OS :=
  let ed := s.realm_data.education
  if ed.in_session then
    education_session_input now s k
  else
    match k with
    | Key.left =>
      if ed.selected % 3 > 0 then
        { s with realm_data.education.selected := ed.selected - 1 }
      else s
    | Key.right =>
      if ed.selected % 3 < 2 ∧ ed.selected < 5 then
        { s with realm_data.education.selected := ed.selected + 1 }
      else s
    | Key.up =>
      if ed.selected ≥ 3 then
        { s with realm_data.education.selected := ed.selected - 3 }
      else s
    | Key.down =>
      if ed.selected < 3 then
        { s with realm_data.education.selected := ed.selected + 3 }
      else s
    | Key.enter =>
      { s with realm_data.education.panel_open := !ed.panel_open }
    | Key.kb =>
      if ed.panel_open then
        { s with realm_data.education.panel_open := false }
      else s
    | Key.ks =>
      if ed.panel_open then
        let m := Msg.sessionStart ed.selected
        let s1 := { s with
          realm_data.education.in_session := true,
          realm_data.education.subject_index := ed.selected,
          realm_data.education.q_index := 0,
          realm_data.education.session_start_time := now,
          realm_data.education.answered_correctly := false }
        if s1.ticker_text.head? = some m then s1
        else { s1 with ticker_text := m :: s1.ticker_text }
      else s
    | _ => s

/-- MotiBeamOS.handle_transport_input (src/spatial_os.py:1911-1930):
3-column grid over 6 destinations; ENTER only prints. -/
def handle_transport_input (s : OS) (k : Key) : OS :=
  let sel := s.realm_data.transport.selected
  match k with
  | Key.left =>
    if sel % 3 > 0 then
      { s with realm_data.transport.selected := sel - 1 }
    else s
  | Key.right =>
    if sel % 3 < 2 ∧ sel < 5 then
      { s with realm_data.transport.selected := sel + 1 }
    else s
  | Key.up =>
    if sel ≥ 3 then
      { s with realm_data.transport.selected := sel - 3 }
    else s
  | Key.down =>
    if sel < 3 then
      { s with realm_data.transport.selected := sel + 3 }
    else s
  | _ => s

/-- The state-dispatch tail of handle_key ("Route to state-specific
handlers", src/spatial_os.py:673-687): forward the key to the active
screen's own input handler. -/
def route_to_handler (now : Nat) (s : OS) (k : Key) : OS :=
  match s.state with
  | SName.home => handle_home_input s k
  | SName.circlebeam => handle_circlebeam_input s k
  | SName.marketplace => handle_marketplace_input s k
  | SName.home_realm => handle_home_realm_input now s k
  | SName.clinical => handle_clinical_input s k
  | SName.education => handle_education_input now s k
  | SName.transport => handle_transport_input s k

/-- The result of one input-processing step: either the process exits
(pygame.quit(); sys.exit(code)) or it continues in a new state. -/
inductive StepResult
  | exits (code : Nat)
  | cont (s : OS)
deriving DecidableEq

/-- MotiBeamOS.handle_key (src/spatial_os.py:626-687), in source order:
Q always exits; ESC exits at home and otherwise goes back; L toggles the
alert banner; I starts an incoming call; A/D accept/decline while a call
is active (decline sets the missed-presence badge and prepends a de-duped
ticker message); everything else is routed to the active state's handler. -/
def handle_key (now : Nat) (s : OS) (k : Key) : StepResult :=
  if k = Key.kq then
    StepResult.exits 0
  else if k = Key.escape then
    if s.state = SName.home then
      StepResult.exits 0
    else
      StepResult.cont (go_back s)
  else if k = Key.kl then
    StepResult.cont { s with
      alert_enabled := !s.alert_enabled,
      alert_change_time := now }
  else if k = Key.ki then
    StepResult.cont { s with call_active := true }
  else if k = Key.ka ∧ s.call_active = true then
    StepResult.cont { s with call_active := false }
  else if k = Key.kd ∧ s.call_active = true then
    let s1 := { s with call_active := false, missed_presence := true }
    StepResult.cont
      (if s1.ticker_text.head? = some Msg.missedPresence then s1
       else { s1 with ticker_text := Msg.missedPresence :: s1.ticker_text })
  else
    StepResult.cont (route_to_handler now s k)

/-- The state built by MotiBeamOS.__init__ (src/spatial_os.py:182-270),
restricted to the modelled fields. -/
def initOS : OS :=
  { selected_index := 0
    state := SName.home
    navigation_stack := [SName.home]
    realm_data :=
      { circlebeam := { selected := 0 }
        marketplace := { selected := 0, preview_open := false, installed := [] }
        home_realm :=
          { selected := 0
            temp_changed_time := 0
            living_lights := true
            bedroom_lights := false
            temp := 72
            security := false
            door := true
            garage := false }
        clinical := { selected := 0 }
        education :=
          { selected := 0
            panel_open := false
            in_session := false
            subject_index := 0
            q_index := 0
            session_start_time := 0
            answered_correctly := false }
        transport := { selected := 0 } }
    call_active := false
    missed_presence := false
    alert_enabled := false
    alert_change_time := 0
    ticker_text := [Msg.boot] }

/-- The sequence of states reached after each input-processing step of the
run loop (src/spatial_os.py:1934-1942): each KEYDOWN event is fed to
handle_key; the trace ends if the process exits. -/
def runTrace : OS → List (Nat × Key) → List OS
  | _, [] => []
  | s, (t, k) :: rest =>
    match handle_key t s k with
    | StepResult.exits _ => []
    | StepResult.cont s2 => s2 :: runTrace s2 rest

/-- A display mode request: width, height, fullscreen flag. -/
structure DisplayMode where
  width : Nat
  height : Nat
  fullscreen : Bool
deriving DecidableEq

/-- Whether init_display produced a screen or let a pygame error propagate
out (terminating the program, since no caller catches it). -/
inductive InitResult
  | screen
  | uncaught
deriving DecidableEq

/-- init_display (src/spatial_os.py:112-134): the live path of the
function.  It makes exactly one set_mode attempt — (width, height),
fullscreen — with no surrounding try, and returns at line 134; the
driver-fallback code at lines 136-179 is unreachable (dead code after an
unconditional return).  `env` says which display modes the environment can
create.  The result pairs the list of modes attempted with the outcome:
if the single attempt fails, the pygame error propagates uncaught. -/
def init_display (env : DisplayMode → Bool) (width height : Nat) :
    List DisplayMode × InitResult :=
  let req : DisplayMode := { width := width, height := height, fullscreen := true }
  ([req], if env req then InitResult.screen else InitResult.uncaught)

end MotiBeam

namespace MotiBeam

/-- The shape navigation state provably keeps from startup: at home the
stack is exactly the permanent bottom entry, and inside a realm it is the
bottom entry plus that realm.  This is the inductive strengthening of the
spec's navigation invariant. -/
def NavShape (s : OS) : Prop :=
  (s.state = SName.home ∧ s.navigation_stack = [SName.home]) ∨
  (s.state ≠ SName.home ∧ s.navigation_stack = [SName.home, s.state])

instance (s : OS) : Decidable (NavShape s) := by
  unfold NavShape
  infer_instance

/-! ### Frame lemmas: what each operation leaves unchanged -/

theorem move_selection_frame (s : OS) (dx dy : Int) :
    move_selection s dx dy =
      { s with selected_index := (move_selection s dx dy).selected_index } := by
  simp only [move_selection]
  split_ifs <;> rfl

theorem enter_realm_state (s : OS) (r : SName) : (enter_realm s r).state = r := by
  simp only [enter_realm]
  split_ifs <;> rfl

theorem enter_realm_stack (s : OS) (r : SName) :
    (enter_realm s r).navigation_stack = s.navigation_stack ++ [r] := by
  simp only [enter_realm]
  split_ifs <;> rfl

theorem enter_realm_realm_data (s : OS) (r : SName) :
    (enter_realm s r).realm_data = s.realm_data := by
  simp only [enter_realm]
  split_ifs <;> rfl

theorem enter_realm_sel (s : OS) (r : SName) :
    (enter_realm s r).selected_index = s.selected_index := by
  simp only [enter_realm]
  split_ifs <;> rfl

theorem go_back_realm_data (s : OS) : (go_back s).realm_data = s.realm_data := by
  simp only [go_back]
  split_ifs <;> rfl

theorem go_back_sel (s : OS) : (go_back s).selected_index = s.selected_index := by
  simp only [go_back]
  split_ifs <;> rfl

theorem go_back_two (s : OS) (r : SName) (h : s.navigation_stack = [SName.home, r]) :
    go_back s = { s with navigation_stack := [SName.home], state := SName.home } := by
  simp [go_back, h]

theorem circlebeam_frame (s : OS) (k : Key) :
    handle_circlebeam_input s k =
      { s with realm_data.circlebeam :=
          (handle_circlebeam_input s k).realm_data.circlebeam } := by
  cases k <;> simp only [handle_circlebeam_input] <;> (repeat' split) <;> rfl

theorem marketplace_frame (s : OS) (k : Key) :
    handle_marketplace_input s k =
      { s with
        realm_data.marketplace := (handle_marketplace_input s k).realm_data.marketplace,
        ticker_text := (handle_marketplace_input s k).ticker_text } := by
  cases k <;> simp only [handle_marketplace_input] <;> (repeat' split) <;> rfl

theorem home_realm_frame (now : Nat) (s : OS) (k : Key) :
    handle_home_realm_input now s k =
      { s with realm_data.home_realm :=
          (handle_home_realm_input now s k).realm_data.home_realm } := by
  cases k <;> simp only [handle_home_realm_input] <;> (repeat' split) <;> rfl

theorem education_body_frame (now : Nat) (s : OS) (k : Key) :
    education_session_body now s k =
      { s with
        realm_data.education := (education_session_body now s k).realm_data.education,
        ticker_text := (education_session_body now s k).ticker_text } := by
  cases k <;> simp only [education_session_body] <;> (repeat' split) <;> rfl

theorem education_session_frame (now : Nat) (s : OS) (k : Key) :
    education_session_input now s k =
      { s with
        realm_data.education := (education_session_input now s k).realm_data.education,
        ticker_text := (education_session_input now s k).ticker_text } := by
  simp only [education_session_input]
  split_ifs <;> rw [education_body_frame now s k]

theorem education_frame (now : Nat) (s : OS) (k : Key) :
    handle_education_input now s k =
      { s with
        realm_data.education := (handle_education_input now s k).realm_data.education,
        ticker_text := (handle_education_input now s k).ticker_text } := by
  simp only [handle_education_input]
  by_cases h : s.realm_data.education.in_session = true
  · simp only [if_pos h]
    exact education_session_frame now s k
  · simp only [if_neg h]
    cases k <;> (repeat' split) <;> rfl

theorem transport_frame (s : OS) (k : Key) :
    handle_transport_input s k =
      { s with realm_data.transport :=
          (handle_transport_input s k).realm_data.transport } := by
  cases k <;> simp only [handle_transport_input] <;> (repeat' split) <;> rfl

theorem home_input_realm_data (s : OS) (k : Key) :
    (handle_home_input s k).realm_data = s.realm_data := by
  cases k <;>
    simp only [handle_home_input, move_selection, enter_realm] <;>
    (repeat' split) <;> rfl

theorem home_input_state (s : OS) (k : Key) (hk : k ≠ Key.enter) :
    (handle_home_input s k).state = s.state := by
  cases k <;> simp only [handle_home_input, move_selection] <;>
    (repeat' split) <;> first | rfl | exact absurd rfl hk

theorem home_input_stack (s : OS) (k : Key) (hk : k ≠ Key.enter) :
    (handle_home_input s k).navigation_stack = s.navigation_stack := by
  cases k <;> simp only [handle_home_input, move_selection] <;>
    (repeat' split) <;> first | rfl | exact absurd rfl hk

end MotiBeam

namespace MotiBeam

/-! ### Reduction and case analysis for handle_key -/

theorem realm_map_ne_home (i : Nat) (r : SName) (h : realm_map i = some r) :
    r ≠ SName.home := by
  intro hr
  subst hr
  unfold realm_map at h
  split_ifs at h <;> simp_all

theorem handle_key_route (now : Nat) (s : OS) (k : Key)
    (hq : k ≠ Key.kq) (hesc : k ≠ Key.escape) (hl : k ≠ Key.kl) (hi : k ≠ Key.ki)
    (ha : ¬(k = Key.ka ∧ s.call_active = true))
    (hd : ¬(k = Key.kd ∧ s.call_active = true)) :
    handle_key now s k = StepResult.cont (route_to_handler now s k) := by
  simp only [handle_key, if_neg hq, if_neg hesc, if_neg hl, if_neg hi, if_neg ha,
    if_neg hd]

/-- Every continuing step of handle_key is either the shell's escape
interception, one of the shell's alert/call interceptions (which touch no
navigation or realm state), or a dispatch to the active screen's handler. -/
theorem handle_key_cases (now : Nat) (s : OS) (k : Key) (s2 : OS)
    (h : handle_key now s k = StepResult.cont s2) :
    (k = Key.escape ∧ s.state ≠ SName.home ∧ s2 = go_back s) ∨
    ((k = Key.kl ∨ k = Key.ki ∨ k = Key.ka ∨ k = Key.kd) ∧
      s2.state = s.state ∧ s2.navigation_stack = s.navigation_stack ∧
      s2.selected_index = s.selected_index ∧ s2.realm_data = s.realm_data) ∨
    (s2 = route_to_handler now s k) := by
  unfold handle_key at h
  split_ifs at h with h1 h2 h3 h4 h5 h6 h7
  · injection h with h'
    exact Or.inl ⟨h2, h3, h'.symm⟩
  · injection h with h'
    subst h'
    exact Or.inr (Or.inl ⟨Or.inl h4, rfl, rfl, rfl, rfl⟩)
  · injection h with h'
    subst h'
    exact Or.inr (Or.inl ⟨Or.inr (Or.inl h5), rfl, rfl, rfl, rfl⟩)
  · injection h with h'
    subst h'
    exact Or.inr (Or.inl ⟨Or.inr (Or.inr (Or.inl h6.1)), rfl, rfl, rfl, rfl⟩)
  · injection h with h'
    subst h'
    refine Or.inr (Or.inl ⟨Or.inr (Or.inr (Or.inr h7.1)), ?_, ?_, ?_, ?_⟩) <;>
      split <;> rfl
  · injection h with h'
    exact Or.inr (Or.inr h'.symm)

/-- Invariance along input traces: a property preserved by every
continuing handle_key step holds at every state of every trace. -/
theorem trace_inv {P : OS → Prop}
    (hstep : ∀ t s k s2, P s → handle_key t s k = StepResult.cont s2 → P s2) :
    ∀ (inputs : List (Nat × Key)) (s : OS), P s →
      ∀ s2 ∈ runTrace s inputs, P s2 := by
  intro inputs
  induction inputs with
  | nil =>
    intro s hs s2 h2
    simp [runTrace] at h2
  | cons tk rest ih =>
    obtain ⟨t, k⟩ := tk
    intro s hs s2 h2
    simp only [runTrace] at h2
    cases hk : handle_key t s k with
    | exits c =>
      rw [hk] at h2
      simp at h2
    | cont s1 =>
      rw [hk] at h2
      simp only [List.mem_cons] at h2
      rcases h2 with h2 | h2
      · subst h2
        exact hstep t s k s2 hs hk
      · exact ih s1 (hstep t s k s1 hs hk) s2 h2

end MotiBeam

namespace MotiBeam

/-! ### Routing preservation lemmas -/

theorem route_realm_frame (now : Nat) (s : OS) (k : Key)
    (hs : s.state ≠ SName.home) :
    (route_to_handler now s k).state = s.state ∧
    (route_to_handler now s k).navigation_stack = s.navigation_stack ∧
    (route_to_handler now s k).selected_index = s.selected_index := by
  unfold route_to_handler
  split
  · exact absurd (by assumption) hs
  · rw [circlebeam_frame s k]
    exact ⟨rfl, rfl, rfl⟩
  · rw [marketplace_frame s k]
    exact ⟨rfl, rfl, rfl⟩
  · rw [home_realm_frame now s k]
    exact ⟨rfl, rfl, rfl⟩
  · exact ⟨rfl, rfl, rfl⟩
  · rw [education_frame now s k]
    exact ⟨rfl, rfl, rfl⟩
  · rw [transport_frame s k]
    exact ⟨rfl, rfl, rfl⟩

theorem route_home (now : Nat) (s : OS) (k : Key) (hs : s.state = SName.home) :
    route_to_handler now s k = handle_home_input s k := by
  simp [route_to_handler, hs]

theorem route_home_realm_data (now : Nat) (s : OS) (k : Key)
    (hs : s.state ≠ SName.home_realm) :
    (route_to_handler now s k).realm_data.home_realm = s.realm_data.home_realm := by
  unfold route_to_handler
  split
  · rw [home_input_realm_data]
  · rw [circlebeam_frame s k]
  · rw [marketplace_frame s k]
  · exact absurd (by assumption) hs
  · rfl
  · rw [education_frame now s k]
  · rw [transport_frame s k]

/-! ### Selection-index bounds -/

theorem move_selection_sel_lt (s : OS) (dx dy : Int)
    (h : s.selected_index < NUM_REALMS) :
    (move_selection s dx dy).selected_index < NUM_REALMS := by
  simp only [move_selection, NUM_REALMS, GRID_COLS, GRID_ROWS] at *
  split_ifs with hlt
  · dsimp only
    omega
  · exact h

theorem home_input_enter (s : OS) :
    handle_home_input s Key.enter =
      (match realm_map s.selected_index with
       | some name => enter_realm s name
       | none => s) := rfl

theorem home_input_sel_lt (s : OS) (k : Key) (h : s.selected_index < NUM_REALMS) :
    (handle_home_input s k).selected_index < NUM_REALMS := by
  cases k with
  | left => exact move_selection_sel_lt s (-1) 0 h
  | right => exact move_selection_sel_lt s 1 0 h
  | up => exact move_selection_sel_lt s 0 (-1) h
  | down => exact move_selection_sel_lt s 0 1 h
  | enter =>
    rw [home_input_enter]
    split
    · rw [enter_realm_sel]
      exact h
    · exact h
  | digit d =>
    simp only [handle_home_input]
    split_ifs with hd
    · exact hd
    · exact h
  | _ => exact h

end MotiBeam

namespace MotiBeam

/-! ### Navigation shape preservation -/

theorem nav_shape_step (t : Nat) (s : OS) (k : Key) (s2 : OS)
    (hs : NavShape s) (h : handle_key t s k = StepResult.cont s2) :
    NavShape s2 := by
  rcases handle_key_cases t s k s2 h with ⟨_, hhome, he⟩ | ⟨_, h1, h2, _, _⟩ | hroute
  · subst he
    rcases hs with ⟨hst, _⟩ | ⟨_, hstk⟩
    · exact absurd hst hhome
    · rw [go_back_two s s.state hstk]
      exact Or.inl ⟨rfl, rfl⟩
  · rcases hs with ⟨hst, hstk⟩ | ⟨hst, hstk⟩
    · exact Or.inl ⟨h1.trans hst, h2.trans hstk⟩
    · refine Or.inr ⟨?_, ?_⟩
      · rw [h1]
        exact hst
      · rw [h1, h2]
        exact hstk
  · subst hroute
    rcases hs with ⟨hst, hstk⟩ | ⟨hst, hstk⟩
    · rw [route_home t s k hst]
      by_cases hk : k = Key.enter
      · subst hk
        rw [home_input_enter]
        cases hrm : realm_map s.selected_index with
        | some r =>
          simp only [hrm]
          refine Or.inr ⟨?_, ?_⟩
          · rw [enter_realm_state]
            exact realm_map_ne_home _ _ hrm
          · rw [enter_realm_stack, enter_realm_state, hstk]
            rfl
        | none =>
          simp only [hrm]
          exact Or.inl ⟨hst, hstk⟩
      · exact Or.inl ⟨(home_input_state s k hk).trans hst,
          (home_input_stack s k hk).trans hstk⟩
    · obtain ⟨f1, f2, _⟩ := route_realm_frame t s k hst
      refine Or.inr ⟨?_, ?_⟩
      · rw [f1]
        exact hst
      · rw [f1, f2]
        exact hstk

theorem nav_shape_facts (s : OS) (hs : NavShape s) :
    (s.state ≠ SName.home ↔ s.navigation_stack.length > 1) ∧
    (s.navigation_stack.length = 1 ↔ s.state = SName.home) ∧
    s.navigation_stack.head? = some SName.home := by
  rcases hs with ⟨hst, hstk⟩ | ⟨hst, hstk⟩
  · rw [hst, hstk]
    simp
  · rw [hstk]
    simp [hst]

/-! ### Thermostat lemmas -/

theorem home_realm_temp_bound (now : Nat) (s : OS) (k : Key)
    (h60 : 60 ≤ s.realm_data.home_realm.temp)
    (h85 : s.realm_data.home_realm.temp ≤ 85) :
    60 ≤ (handle_home_realm_input now s k).realm_data.home_realm.temp ∧
      (handle_home_realm_input now s k).realm_data.home_realm.temp ≤ 85 := by
  cases k <;> simp only [handle_home_realm_input] <;> (repeat' split) <;>
    (try dsimp only) <;> omega

theorem home_realm_temp_unchanged (now : Nat) (s : OS) (k : Key)
    (hn : ¬(s.realm_data.home_realm.selected = 2 ∧
            (k = Key.left ∨ k = Key.right))) :
    (handle_home_realm_input now s k).realm_data.home_realm.temp =
      s.realm_data.home_realm.temp := by
  cases k <;> simp only [handle_home_realm_input] <;> (repeat' split) <;>
    (try dsimp only) <;>
    first
    | rfl
    | exact absurd ⟨by assumption, by simp⟩ hn

theorem thermostat_left (now : Nat) (s : OS)
    (h2 : s.realm_data.home_realm.selected = 2) :
    (handle_home_realm_input now s Key.left).realm_data.home_realm.temp =
      max 60 (s.realm_data.home_realm.temp - 1) := by
  simp only [handle_home_realm_input, h2]
  split_ifs <;> (try dsimp only) <;> first | rfl | omega

theorem thermostat_right (now : Nat) (s : OS)
    (h2 : s.realm_data.home_realm.selected = 2) :
    (handle_home_realm_input now s Key.right).realm_data.home_realm.temp =
      min 85 (s.realm_data.home_realm.temp + 1) := by
  simp only [handle_home_realm_input, h2]
  split_ifs <;> (try dsimp only) <;> first | rfl | omega

end MotiBeam

namespace MotiBeam

/-! ### Full-step preservation lemmas -/

theorem handle_key_escape_realm (t : Nat) (s : OS) (hs : s.state ≠ SName.home) :
    handle_key t s Key.escape = StepResult.cont (go_back s) := by
  simp [handle_key, hs]

theorem step_sel_lt (t : Nat) (s : OS) (k : Key) (s2 : OS)
    (hsel : s.selected_index < NUM_REALMS)
    (h : handle_key t s k = StepResult.cont s2) :
    s2.selected_index < NUM_REALMS := by
  rcases handle_key_cases t s k s2 h with ⟨_, _, he⟩ | ⟨_, _, _, h3, _⟩ | hroute
  · subst he
    rw [go_back_sel]
    exact hsel
  · rw [h3]
    exact hsel
  · subst hroute
    by_cases hst : s.state = SName.home
    · rw [route_home t s k hst]
      exact home_input_sel_lt s k hsel
    · rw [(route_realm_frame t s k hst).2.2]
      exact hsel

theorem step_temp_bound (t : Nat) (s : OS) (k : Key) (s2 : OS)
    (h60 : 60 ≤ s.realm_data.home_realm.temp)
    (h85 : s.realm_data.home_realm.temp ≤ 85)
    (h : handle_key t s k = StepResult.cont s2) :
    60 ≤ s2.realm_data.home_realm.temp ∧ s2.realm_data.home_realm.temp ≤ 85 := by
  rcases handle_key_cases t s k s2 h with ⟨_, _, he⟩ | ⟨_, _, _, _, h4⟩ | hroute
  · subst he
    rw [go_back_realm_data]
    exact ⟨h60, h85⟩
  · rw [h4]
    exact ⟨h60, h85⟩
  · subst hroute
    by_cases hst : s.state = SName.home_realm
    · have hr : route_to_handler t s k = handle_home_realm_input t s k := by
        simp [route_to_handler, hst]
      rw [hr]
      exact home_realm_temp_bound t s k h60 h85
    · rw [route_home_realm_data t s k hst]
      exact ⟨h60, h85⟩

theorem step_temp_frame (t : Nat) (s : OS) (k : Key) (s2 : OS)
    (h : handle_key t s k = StepResult.cont s2)
    (hn : ¬(s.state = SName.home_realm ∧ s.realm_data.home_realm.selected = 2 ∧
            (k = Key.left ∨ k = Key.right))) :
    s2.realm_data.home_realm.temp = s.realm_data.home_realm.temp := by
  rcases handle_key_cases t s k s2 h with ⟨_, _, he⟩ | ⟨_, _, _, _, h4⟩ | hroute
  · subst he
    rw [go_back_realm_data]
  · rw [h4]
  · subst hroute
    by_cases hst : s.state = SName.home_realm
    · have hr : route_to_handler t s k = handle_home_realm_input t s k := by
        simp [route_to_handler, hst]
      rw [hr]
      exact home_realm_temp_unchanged t s k (fun hc => hn ⟨hst, hc⟩)
    · rw [route_home_realm_data t s k hst]

/-! ### Clamped grid movement, per direction -/

theorem move_selection_left_sel (s : OS) (h : s.selected_index < NUM_REALMS) :
    (move_selection s (-1) 0).selected_index =
      if s.selected_index % GRID_COLS = 0 then s.selected_index
      else s.selected_index - 1 := by
  simp only [move_selection, NUM_REALMS, GRID_COLS, GRID_ROWS] at *
  split_ifs <;> (try dsimp only) <;> omega

theorem move_selection_right_sel (s : OS) (h : s.selected_index < NUM_REALMS) :
    (move_selection s 1 0).selected_index =
      if s.selected_index % GRID_COLS = GRID_COLS - 1 then s.selected_index
      else s.selected_index + 1 := by
  simp only [move_selection, NUM_REALMS, GRID_COLS, GRID_ROWS] at *
  split_ifs <;> (try dsimp only) <;> omega

theorem move_selection_up_sel (s : OS) (h : s.selected_index < NUM_REALMS) :
    (move_selection s 0 (-1)).selected_index =
      if s.selected_index < GRID_COLS then s.selected_index
      else s.selected_index - GRID_COLS := by
  simp only [move_selection, NUM_REALMS, GRID_COLS, GRID_ROWS] at *
  split_ifs <;> (try dsimp only) <;> omega

theorem move_selection_down_sel (s : OS) (h : s.selected_index < NUM_REALMS) :
    (move_selection s 0 1).selected_index =
      if GRID_COLS * (GRID_ROWS - 1) ≤ s.selected_index then s.selected_index
      else s.selected_index + GRID_COLS := by
  simp only [move_selection, NUM_REALMS, GRID_COLS, GRID_ROWS] at *
  split_ifs <;> (try dsimp only) <;> omega

end MotiBeam

namespace MotiBeam

/-! ### Claim theorems -/

/-- C1: for every sequence of input key events processed by the shell from
the initial state (selected_index = 0, 12 realm entries in a 4 by 3 grid),
after every input-processing step selected_index stays in [0, 12):
directional moves are clamped to the grid and numeric quick-select only
assigns an in-range index. -/
theorem C1_selected_index_invariant :
    ∀ (inputs : List (Nat × Key)) (s2 : OS), s2 ∈ runTrace initOS inputs →
      0 ≤ s2.selected_index ∧ s2.selected_index < NUM_REALMS := by
  intro inputs s2 h2
  refine ⟨Nat.zero_le _, ?_⟩
  exact trace_inv (P := fun s => s.selected_index < NUM_REALMS)
    (fun t s k s3 hp he => step_sel_lt t s k s3 hp he)
    inputs initOS (by decide) s2 h2

/-- C1 witness: after one right-arrow step from the initial state the
invariant holds at the resulting state (selected_index = 1). -/
theorem C1_selected_index_invariant_witness :
    ({ initOS with selected_index := 1 } ∈ runTrace initOS [(0, Key.right)]) ∧
      (0 ≤ ({ initOS with selected_index := 1 } : OS).selected_index ∧
        ({ initOS with selected_index := 1 } : OS).selected_index < NUM_REALMS) :=
  ⟨by decide, C1_selected_index_invariant [(0, Key.right)] _ (by decide)⟩

/-- C2: for every input sequence from the initial state (state home,
stack [home]), after every input-processing step a realm is active iff the
history stack has more than one entry, equivalently the stack has exactly
one entry iff no realm is active, and the bottom home entry is never
popped. -/
theorem C2_navigation_invariant :
    ∀ (inputs : List (Nat × Key)) (s2 : OS), s2 ∈ runTrace initOS inputs →
      ((s2.state ≠ SName.home ↔ s2.navigation_stack.length > 1) ∧
       (s2.navigation_stack.length = 1 ↔ s2.state = SName.home) ∧
       s2.navigation_stack.head? = some SName.home) := by
  intro inputs s2 h2
  refine nav_shape_facts s2 ?_
  exact trace_inv (P := NavShape)
    (fun t s k s3 hp he => nav_shape_step t s k s3 hp he)
    inputs initOS (Or.inl ⟨rfl, rfl⟩) s2 h2

/-- C2 witness: after one confirm step from the initial state (entering
circlebeam) the invariant holds at the resulting state. -/
theorem C2_navigation_invariant_witness :
    ({ initOS with
        state := SName.circlebeam,
        navigation_stack := [SName.home, SName.circlebeam] } ∈
      runTrace initOS [(0, Key.enter)]) ∧
    ((({ initOS with
        state := SName.circlebeam,
        navigation_stack := [SName.home, SName.circlebeam] } : OS).state ≠ SName.home ↔
       ({ initOS with
        state := SName.circlebeam,
        navigation_stack := [SName.home, SName.circlebeam] } : OS).navigation_stack.length > 1) ∧
     (({ initOS with
        state := SName.circlebeam,
        navigation_stack := [SName.home, SName.circlebeam] } : OS).navigation_stack.length = 1 ↔
       ({ initOS with
        state := SName.circlebeam,
        navigation_stack := [SName.home, SName.circlebeam] } : OS).state = SName.home) ∧
     ({ initOS with
        state := SName.circlebeam,
        navigation_stack := [SName.home, SName.circlebeam] } : OS).navigation_stack.head? =
       some SName.home) :=
  ⟨by decide, C2_navigation_invariant [(0, Key.enter)] _ (by decide)⟩

/-- C9: in every shell state (home or any active realm, including an
in-progress education session), the reserved quit key Q terminates the
process immediately along the same clean shutdown path (exit code 0),
bypassing any realm-specific cancel or escape handling. -/
theorem C9_quit_terminates :
    ∀ (t : Nat) (s : OS), handle_key t s Key.kq = StepResult.exits 0 := by
  intro t s
  simp [handle_key]

/-- C10: the Home realm thermostat starts at 72 and always stays within
[60, 85]: while the thermostat tile (device index 2) is selected, left and
right adjust it by exactly 1 clamped to 60 and 85, and no other
input-processing step mutates it. -/
theorem C10_thermostat_bounds :
    initOS.realm_data.home_realm.temp = 72 ∧
    (∀ (inputs : List (Nat × Key)) (s2 : OS), s2 ∈ runTrace initOS inputs →
      60 ≤ s2.realm_data.home_realm.temp ∧ s2.realm_data.home_realm.temp ≤ 85) ∧
    (∀ (t : Nat) (s : OS), s.state = SName.home_realm →
      s.realm_data.home_realm.selected = 2 →
      (∃ s2, handle_key t s Key.left = StepResult.cont s2 ∧
        s2.realm_data.home_realm.temp = max 60 (s.realm_data.home_realm.temp - 1)) ∧
      (∃ s2, handle_key t s Key.right = StepResult.cont s2 ∧
        s2.realm_data.home_realm.temp = min 85 (s.realm_data.home_realm.temp + 1))) ∧
    (∀ (t : Nat) (s : OS) (k : Key) (s2 : OS),
      handle_key t s k = StepResult.cont s2 →
      ¬(s.state = SName.home_realm ∧ s.realm_data.home_realm.selected = 2 ∧
        (k = Key.left ∨ k = Key.right)) →
      s2.realm_data.home_realm.temp = s.realm_data.home_realm.temp) := by
  refine ⟨rfl, ?_, ?_, ?_⟩
  · intro inputs s2 h2
    exact trace_inv
      (P := fun s => 60 ≤ s.realm_data.home_realm.temp ∧
        s.realm_data.home_realm.temp ≤ 85)
      (fun t s k s3 hp he => step_temp_bound t s k s3 hp.1 hp.2 he)
      inputs initOS (by decide) s2 h2
  · intro t s hst h2
    constructor
    · refine ⟨route_to_handler t s Key.left,
        handle_key_route t s Key.left (by decide) (by decide) (by decide)
          (by decide) (by simp) (by simp), ?_⟩
      have hr : route_to_handler t s Key.left = handle_home_realm_input t s Key.left := by
        simp [route_to_handler, hst]
      rw [hr]
      exact thermostat_left t s h2
    · refine ⟨route_to_handler t s Key.right,
        handle_key_route t s Key.right (by decide) (by decide) (by decide)
          (by decide) (by simp) (by simp), ?_⟩
      have hr : route_to_handler t s Key.right = handle_home_realm_input t s Key.right := by
        simp [route_to_handler, hst]
      rw [hr]
      exact thermostat_right t s h2
  · intro t s k s2 he hn
    exact step_temp_frame t s k s2 he hn

/-- C10 witness: the invariant after two steps that enter the Home realm,
and the clamped adjustment applied at a concrete thermostat-selected
state. -/
theorem C10_thermostat_bounds_witness :
    (∀ s2 ∈ runTrace initOS [(0, Key.digit 4), (0, Key.enter)],
      60 ≤ s2.realm_data.home_realm.temp ∧ s2.realm_data.home_realm.temp ≤ 85) ∧
    (∃ s2, handle_key 0
        { initOS with
          state := SName.home_realm,
          navigation_stack := [SName.home, SName.home_realm],
          realm_data.home_realm.selected := 2 } Key.left = StepResult.cont s2 ∧
      s2.realm_data.home_realm.temp =
        max 60 (({ initOS with
          state := SName.home_realm,
          navigation_stack := [SName.home, SName.home_realm],
          realm_data.home_realm.selected := 2 } : OS).realm_data.home_realm.temp - 1)) :=
  ⟨fun s2 h2 => C10_thermostat_bounds.2.1 [(0, Key.digit 4), (0, Key.enter)] s2 h2,
   (C10_thermostat_bounds.2.2.1 0
      { initOS with
        state := SName.home_realm,
        navigation_stack := [SName.home, SName.home_realm],
        realm_data.home_realm.selected := 2 } rfl rfl).1⟩

end MotiBeam

namespace MotiBeam

/-- C6: in the Home state, from any selected_index, each directional input
moves the selection by exactly one row or column, clamped to the 4 by 3
grid with no wrap (left in the leftmost column is a no-op, and
symmetrically at the other three edges); starting at index 0,
right, right, right gives 3, a further right stays at 3, and down then
gives 7. -/
theorem C6_clamped_grid_navigation :
    (∀ (t : Nat) (s : OS), s.state = SName.home →
      s.selected_index < NUM_REALMS →
      (handle_key t s Key.left = StepResult.cont
        { s with selected_index :=
            if s.selected_index % GRID_COLS = 0 then s.selected_index
            else s.selected_index - 1 }) ∧
      (handle_key t s Key.right = StepResult.cont
        { s with selected_index :=
            if s.selected_index % GRID_COLS = GRID_COLS - 1 then s.selected_index
            else s.selected_index + 1 }) ∧
      (handle_key t s Key.up = StepResult.cont
        { s with selected_index :=
            if s.selected_index < GRID_COLS then s.selected_index
            else s.selected_index - GRID_COLS }) ∧
      (handle_key t s Key.down = StepResult.cont
        { s with selected_index :=
            if GRID_COLS * (GRID_ROWS - 1) ≤ s.selected_index then s.selected_index
            else s.selected_index + GRID_COLS })) ∧
    ((runTrace initOS
        [(0, Key.right), (0, Key.right), (0, Key.right), (0, Key.right),
         (0, Key.down)]).map OS.selected_index = [1, 2, 3, 3, 7]) := by
  refine ⟨?_, by decide⟩
  intro t s hst h
  refine ⟨?_, ?_, ?_, ?_⟩
  · rw [handle_key_route t s Key.left (by decide) (by decide) (by decide)
      (by decide) (by simp) (by simp), route_home t s Key.left hst]
    show StepResult.cont (move_selection s (-1) 0) = _
    rw [move_selection_frame s (-1) 0, move_selection_left_sel s h]
  · rw [handle_key_route t s Key.right (by decide) (by decide) (by decide)
      (by decide) (by simp) (by simp), route_home t s Key.right hst]
    show StepResult.cont (move_selection s 1 0) = _
    rw [move_selection_frame s 1 0, move_selection_right_sel s h]
  · rw [handle_key_route t s Key.up (by decide) (by decide) (by decide)
      (by decide) (by simp) (by simp), route_home t s Key.up hst]
    show StepResult.cont (move_selection s 0 (-1)) = _
    rw [move_selection_frame s 0 (-1), move_selection_up_sel s h]
  · rw [handle_key_route t s Key.down (by decide) (by decide) (by decide)
      (by decide) (by simp) (by simp), route_home t s Key.down hst]
    show StepResult.cont (move_selection s 0 1) = _
    rw [move_selection_frame s 0 1, move_selection_down_sel s h]

/-- C6 witness: the directional characterization applied at the initial
state (selected_index 0, leftmost column: left is a no-op). -/
theorem C6_clamped_grid_navigation_witness :
    (handle_key 0 initOS Key.left = StepResult.cont
      { initOS with selected_index :=
          if initOS.selected_index % GRID_COLS = 0 then initOS.selected_index
          else initOS.selected_index - 1 }) :=
  (C6_clamped_grid_navigation.1 0 initOS rfl (by decide)).1

/-- C7: in the Home state, the numeric quick-select key N (1-9) sets
selected_index to N-1 when N-1 < 12 and is a no-op otherwise, and in
either case it enters no realm and leaves the navigation stack and all
realm state unchanged: selection and entry are distinct actions. -/
theorem C7_quick_select :
    ∀ (t : Nat) (s : OS) (d : Fin 9), s.state = SName.home →
      handle_key t s (Key.digit d) = StepResult.cont
        { s with selected_index :=
            if d.val < NUM_REALMS then d.val else s.selected_index } ∧
      ({ s with selected_index :=
          if d.val < NUM_REALMS then d.val else s.selected_index } : OS).state
        = s.state ∧
      ({ s with selected_index :=
          if d.val < NUM_REALMS then d.val else s.selected_index } : OS).navigation_stack
        = s.navigation_stack ∧
      ({ s with selected_index :=
          if d.val < NUM_REALMS then d.val else s.selected_index } : OS).realm_data
        = s.realm_data := by
  intro t s d hst
  refine ⟨?_, rfl, rfl, rfl⟩
  rw [handle_key_route t s (Key.digit d) (by simp) (by simp) (by simp)
    (by simp) (by simp) (by simp), route_home t s (Key.digit d) hst]
  show StepResult.cont
    (if d.val < NUM_REALMS then { s with selected_index := d.val } else s) = _
  split_ifs <;> rfl

/-- C7 witness: quick-select key 3 at the initial state sets
selected_index to 2. -/
theorem C7_quick_select_witness :
    handle_key 0 initOS (Key.digit 2) = StepResult.cont
      { initOS with selected_index :=
          if (2 : Fin 9).val < NUM_REALMS then (2 : Fin 9).val
          else initOS.selected_index } ∧
    ({ initOS with selected_index :=
        if (2 : Fin 9).val < NUM_REALMS then (2 : Fin 9).val
        else initOS.selected_index } : OS).state = initOS.state ∧
    ({ initOS with selected_index :=
        if (2 : Fin 9).val < NUM_REALMS then (2 : Fin 9).val
        else initOS.selected_index } : OS).navigation_stack = initOS.navigation_stack ∧
    ({ initOS with selected_index :=
        if (2 : Fin 9).val < NUM_REALMS then (2 : Fin 9).val
        else initOS.selected_index } : OS).realm_data = initOS.realm_data :=
  C7_quick_select 0 initOS 2 rfl

/-- C8: in the Home state, a confirm on a grid cell with no bound realm
implementation (selected_index outside {0, 3, 4, 5, 6, 8}) is a strict
no-op apart from a console diagnostic: the state is returned unchanged and
the step neither raises nor terminates. -/
theorem C8_unbound_confirm_noop :
    ∀ (t : Nat) (s : OS), s.state = SName.home →
      s.selected_index < NUM_REALMS →
      s.selected_index ∉ ([0, 3, 4, 5, 6, 8] : List Nat) →
      handle_key t s Key.enter = StepResult.cont s := by
  intro t s hst _hsel hub
  have hrm : realm_map s.selected_index = none := by
    simp only [List.mem_cons, List.not_mem_nil, or_false] at hub
    push_neg at hub
    obtain ⟨h0, h3, h4, h5, h6, h8⟩ := hub
    unfold realm_map
    split_ifs <;> simp_all
  rw [handle_key_route t s Key.enter (by decide) (by decide) (by decide)
    (by decide) (by simp) (by simp), route_home t s Key.enter hst,
    home_input_enter, hrm]

/-- C8 witness: confirm at the initial state moved to index 1
(LegacyBeam, unbound) leaves the state exactly unchanged. -/
theorem C8_unbound_confirm_noop_witness :
    handle_key 0 { initOS with selected_index := 1 } Key.enter =
      StepResult.cont { initOS with selected_index := 1 } :=
  C8_unbound_confirm_noop 0 { initOS with selected_index := 1 } rfl
    (by decide) (by decide)

end MotiBeam

namespace MotiBeam

/-- C4: from any home-grid state whose selected cell is bound to a realm,
confirm followed immediately by cancel returns the navigation state
(state, navigation_stack, selected_index) exactly to its pre-confirm
value, and the visited realm's per-realm state is untouched by the exit;
concretely, entering the realm bound to index 4, toggling a device on,
cancelling and re-entering leaves the device on and selected_index at 4. -/
theorem C4_enter_then_cancel :
    (∀ (t t2 : Nat) (s : OS) (r : SName), s.state = SName.home →
      s.navigation_stack = [SName.home] →
      realm_map s.selected_index = some r →
      ∃ s1 s2,
        handle_key t s Key.enter = StepResult.cont s1 ∧
        handle_key t2 s1 Key.escape = StepResult.cont s2 ∧
        s2.state = s.state ∧
        s2.navigation_stack = s.navigation_stack ∧
        s2.selected_index = s.selected_index ∧
        s2.realm_data = s1.realm_data ∧
        s1.realm_data = s.realm_data) ∧
    ((runTrace initOS
        [(0, Key.digit 4), (0, Key.enter), (0, Key.right), (0, Key.enter),
         (0, Key.escape), (0, Key.enter)]).map
        (fun s => (s.state, s.selected_index, s.realm_data.home_realm.bedroom_lights)) =
      [(SName.home, 4, false), (SName.home_realm, 4, false),
       (SName.home_realm, 4, false), (SName.home_realm, 4, true),
       (SName.home, 4, true), (SName.home_realm, 4, true)]) := by
  refine ⟨?_, by decide⟩
  intro t t2 s r hst hstk hrm
  have hrne : r ≠ SName.home := realm_map_ne_home _ _ hrm
  have h2 : (enter_realm s r).navigation_stack = [SName.home, r] := by
    rw [enter_realm_stack, hstk]
    rfl
  refine ⟨enter_realm s r, go_back (enter_realm s r), ?_, ?_, ?_, ?_, ?_, ?_, ?_⟩
  · rw [handle_key_route t s Key.enter (by decide) (by decide) (by decide)
      (by decide) (by simp) (by simp), route_home t s Key.enter hst,
      home_input_enter, hrm]
  · exact handle_key_escape_realm t2 (enter_realm s r)
      (by rw [enter_realm_state]; exact hrne)
  · rw [go_back_two _ r h2, hst]
  · rw [go_back_two _ r h2, hstk]
  · rw [go_back_sel, enter_realm_sel]
  · rw [go_back_realm_data]
  · rw [enter_realm_realm_data]

/-- C4 witness: the round trip applied at the initial state moved to
index 4 (the Home realm tile). -/
theorem C4_enter_then_cancel_witness :
    ∃ s1 s2,
      handle_key 0 { initOS with selected_index := 4 } Key.enter =
        StepResult.cont s1 ∧
      handle_key 0 s1 Key.escape = StepResult.cont s2 ∧
      s2.state = ({ initOS with selected_index := 4 } : OS).state ∧
      s2.navigation_stack =
        ({ initOS with selected_index := 4 } : OS).navigation_stack ∧
      s2.selected_index = ({ initOS with selected_index := 4 } : OS).selected_index ∧
      s2.realm_data = s1.realm_data ∧
      s1.realm_data = ({ initOS with selected_index := 4 } : OS).realm_data :=
  C4_enter_then_cancel.1 0 0 { initOS with selected_index := 4 }
    SName.home_realm rfl rfl (by decide)

/-- C3 is refuted as stated: with a realm active, the shell intercepts
more than cancel and quit.  At the concrete education-active state,
processing the alert-toggle key L toggles the shell's alert banner and
returns, instead of forwarding the key to the realm's input handler. -/
theorem C3_forward_counterexample :
    ¬(∀ (t : Nat) (s : OS) (k : Key), s.state ≠ SName.home →
        k ≠ Key.kq → k ≠ Key.escape →
        handle_key t s k = StepResult.cont (route_to_handler t s k)) := by
  intro hclaim
  exact absurd
    (hclaim 0
      { initOS with
        state := SName.education,
        navigation_stack := [SName.home, SName.education] } Key.kl
      (by decide) (by decide) (by decide))
    (by decide)

/-- C3 (amended): whenever a realm is active, every key other than quit,
cancel, the alert-toggle key L, the call key I, and — while a call is
active — the call keys A and D, is forwarded unchanged to the active
realm's own input handler; the shell's cancel interception pops the
history stack back to the single home entry, returns to the Home state,
and leaves every realm's local state untouched. -/
theorem C3_forward_amended :
    ∀ (t : Nat) (s : OS), s.state ≠ SName.home →
      (∀ k : Key, k ≠ Key.kq → k ≠ Key.escape → k ≠ Key.kl → k ≠ Key.ki →
        ¬(k = Key.ka ∧ s.call_active = true) →
        ¬(k = Key.kd ∧ s.call_active = true) →
        handle_key t s k = StepResult.cont (route_to_handler t s k)) ∧
      handle_key t s Key.escape = StepResult.cont (go_back s) ∧
      (go_back s).realm_data = s.realm_data ∧
      (s.navigation_stack = [SName.home, s.state] →
        (go_back s).state = SName.home ∧
        (go_back s).navigation_stack = [SName.home]) := by
  intro t s hs
  refine ⟨?_, handle_key_escape_realm t s hs, go_back_realm_data s, ?_⟩
  · intro k h1 h2 h3 h4 h5 h6
    exact handle_key_route t s k h1 h2 h3 h4 h5 h6
  · intro hstk
    rw [go_back_two s s.state hstk]
    exact ⟨rfl, rfl⟩

/-- C3 witness: at a concrete education-active state with no call active,
the answer key A is forwarded to the education handler, and cancel pops
back to home. -/
theorem C3_forward_amended_witness :
    (handle_key 0
        { initOS with
          state := SName.education,
          navigation_stack := [SName.home, SName.education] } Key.ka =
      StepResult.cont (route_to_handler 0
        { initOS with
          state := SName.education,
          navigation_stack := [SName.home, SName.education] } Key.ka)) ∧
    (handle_key 0
        { initOS with
          state := SName.education,
          navigation_stack := [SName.home, SName.education] } Key.escape =
      StepResult.cont (go_back
        { initOS with
          state := SName.education,
          navigation_stack := [SName.home, SName.education] })) :=
  ⟨(C3_forward_amended 0
      { initOS with
        state := SName.education,
        navigation_stack := [SName.home, SName.education] } (by decide)).1
      Key.ka (by decide) (by decide) (by decide) (by decide) (by decide)
      (by decide),
   (C3_forward_amended 0
      { initOS with
        state := SName.education,
        navigation_stack := [SName.home, SName.education] } (by decide)).2.1⟩

/-- C5 is refuted as stated against init_display in src/spatial_os.py:
the live code path makes exactly one fullscreen set_mode attempt, and on
failure the error propagates with no fallback — in an environment where
the requested 1920x1080 fullscreen mode fails but the windowed mode would
succeed, the program terminates without attempting it. -/
theorem C5_display_fallback_counterexample :
    ¬(∀ (env : DisplayMode → Bool) (w h : Nat),
        (init_display env w h).2 = InitResult.uncaught →
        ∀ m : DisplayMode, (m.fullscreen = false ∨ m.width < w) →
          env m = false) := by
  intro hclaim
  exact absurd
    (hclaim (fun m => !m.fullscreen) 1920 1080 (by decide)
      { width := 1920, height := 1080, fullscreen := false } (Or.inl rfl))
    (by decide)

/-- C5 (amended): init_display attempts exactly the single requested
fullscreen mode; it terminates with an uncaught error iff that one
attempt fails, regardless of whether smaller or windowed modes would have
succeeded — the fallback logic in the file is unreachable dead code. -/
theorem C5_display_no_fallback_amended :
    ∀ (env : DisplayMode → Bool) (w h : Nat),
      (init_display env w h).1 =
        [{ width := w, height := h, fullscreen := true }] ∧
      ((init_display env w h).2 = InitResult.uncaught ↔
        env { width := w, height := h, fullscreen := true } = false) := by
  intro env w h
  refine ⟨rfl, ?_⟩
  unfold init_display
  dsimp only
  split_ifs with hc
  · simp [hc]
  · simp only [Bool.not_eq_true] at hc
    simp [hc]

end MotiBeam
